import Mathlib

/-!
Shallow embedding of `src/video-scheduler.py`, a Telegram-to-YouTube-Shorts
pipeline.  Pure computations (overlay geometry, filename manipulation) are
translated directly.  Effectful code is modelled as functions from an explicit
environment (the outcomes of the external calls a run performs) to a result,
an updated local file-system state and a chronological list of observable
events.  Python `int` arithmetic is modelled on `Nat`/`Int`; `int(x)` applied
to a non-negative value is floor, and the float constants `0.65` and `0.1`
are modelled by the exact rationals `65/100` and `1/10` (for the magnitudes
involved the double rounding of `h * 0.65` never crosses an integer
boundary, so the floors agree).  Fallible Python code is modelled with
`Except PyExc`.
-/

/-- Python exceptions the modelled code can raise. -/
inductive PyExc
  | valueError (msg : String)
  | nameError (nm : String)
  | keyError (key : String)
  | zeroDivisionError
  deriving DecidableEq

/-- Model of Python `str.endswith`. -/
def strEndsWith (s post : String) : Bool :=
  post.data.isSuffixOf s.data

/-- Extension filter for background videos: `f.endswith(('.mp4', '.mov', '.avi'))`
(lines 271-272 and 278-279 of the source). -/
def hasVideoExt (f : String) : Bool :=
  strEndsWith f ".mp4" || strEndsWith f ".mov" || strEndsWith f ".avi"

/-- Extension filter for overlay images: `f.endswith(('.jpg', '.png', '.jpeg'))`
(lines 273-274 of the source). -/
def hasImageExt (f : String) : Bool :=
  strEndsWith f ".jpg" || strEndsWith f ".png" || strEndsWith f ".jpeg"

/-- Model of `os.path.splitext(f)[0]`: the name up to the last dot. -/
def splitextBase (f : String) : String :=
  let cs := f.data
  if cs.contains '.' then
    String.mk (cs.take (cs.length - 1 - cs.reverse.findIdx (fun c => c == '.')))
  else f

/-- `VideoOverlayGenerator.resize_image_for_video` (lines 286-304).
`target_height = int(video_height * 0.65)`; the two true divisions
`image.size[0] / image.size[1]` and `target_width / target_height` raise
`ZeroDivisionError` when their denominator is zero (in source order: the
image aspect on line 292 first, then the target aspect on line 293).  The
branch condition `img_aspect > target_aspect`, i.e. `iw/ih > tw/th`, is the
integer comparison `iw * th > tw * ih` (both denominators positive here),
and the two `int(...)` casts of non-negative quotients are `Nat` floor
divisions. -/
def resize_image_for_video (iw ih video_width video_height : Nat) :
    Except PyExc (Nat × Nat) :=
  let target_height := 65 * video_height / 100
  let target_width := video_width
  if ih = 0 then .error .zeroDivisionError
  else if target_height = 0 then .error .zeroDivisionError
  else if iw * target_height > target_width * ih then
    .ok (target_width, target_width * ih / iw)
  else
    .ok (target_height * iw / ih, target_height)

/-- Open/closed status of the two tracked media streams of
`create_overlay_video`: the background `video = VideoFileClip(...)` (line 328)
and the composited `final_video = CompositeVideoClip(...)` (line 348). -/
structure Streams where
  videoOpened : Bool
  videoClosed : Bool
  finalOpened : Bool
  finalClosed : Bool
  deriving DecidableEq

/-- Stream status before any stream has been acquired. -/
def noStreams : Streams := ⟨false, false, false, false⟩

/-- Environment for one run of the compositor: the random index used by
`random.choice`, the dimensions the decoder reports for the chosen background
video and for the chosen overlay image, and whether
`final_video.write_videofile` succeeds. -/
structure GenEnv where
  choice : Nat
  dims : String → Nat × Nat
  imgDims : String → Nat × Nat
  writeOk : Bool

/-- `VideoOverlayGenerator.get_random_background_video` (lines 276-284):
re-lists the videos folder, filters by extension, raises `ValueError` when
empty, otherwise picks one element (`random.choice` modelled by an
environment-supplied index reduced modulo the length). -/
def get_random_background_video (videos_folder : List String) (choice : Nat) :
    Except PyExc String :=
  let video_files := videos_folder.filter hasVideoExt
  if video_files.isEmpty then
    .error (.valueError "No video files found in the specified folders")
  else
    .ok (video_files.getD (choice % video_files.length) "")

/-- `VideoOverlayGenerator.create_overlay_video` (lines 306-371), as run by
the pipeline, where `self.image_files` was computed by `__init__`
(lines 273-274) from the same directory state.  Returns the final stream
status, whether the output file was actually written, and either the output
filename or the exception that propagates out of the call.
Faithful control points:
* the background video is chosen first (line 309); with no image files,
  `image_file` is never assigned and the `os.path.join` on line 319 raises
  `NameError`;
* `preview_selection` (line 325) opens and closes its own clip and is not
  tracked;
* the background stream opens on line 328, before the image is loaded and
  resized, so a resize exception propagates with that stream still open;
* the write error is swallowed (lines 358-363), after which both streams are
  closed (lines 367-368) and the output path is returned (line 371). -/
def create_overlay_video (g : GenEnv) (videosDir imagesDir : List String) :
    Streams × Bool × Except PyExc String :=
  let image_files := imagesDir.filter hasImageExt
  match get_random_background_video videosDir g.choice with
  | .error e => (noStreams, false, .error e)
  | .ok video_file =>
    match image_files with
    | [] => (noStreams, false, .error (.nameError "image_file"))
    | image_file :: _ =>
      let (video_width, video_height) := g.dims video_file
      let streams1 : Streams := ⟨true, false, false, false⟩
      let (iw, ih) := g.imgDims image_file
      match resize_image_for_video iw ih video_width video_height with
      | .error e => (streams1, false, .error e)
      | .ok (nw, nh) =>
        -- placement geometry (lines 339-341); Python `//` is floor division
        let bottom_margin := video_height / 10
        let _x_pos : Int := Int.fdiv ((video_width : Int) - (nw : Int)) 2
        let _y_pos : Int :=
          (video_height : Int) - (nh : Int) - (bottom_margin : Int)
        let streams2 : Streams := { streams1 with finalOpened := true }
        let wrote := g.writeOk
        let streams3 : Streams :=
          { streams2 with videoClosed := true, finalClosed := true }
        let output_filename := "overlay_" ++ splitextBase video_file ++ ".mp4"
        (streams3, wrote, .ok output_filename)

/-! ## Telegram data and the per-cycle pipeline -/

/-- One element of a message's `photo` array; the code reads its `file_id`
(line 551). -/
structure PhotoSize where
  file_id : String
  deriving DecidableEq

/-- A message's `video` object; the code reads its `file_id` (line 554). -/
structure TgVideo where
  file_id : String
  deriving DecidableEq

/-- A chat message as the code reads it: `message.get('photo')` and
`message.get('video')`.  `none` models an absent key; `some []` models a
present but empty (hence falsy) photo array. -/
structure TgMessage where
  photo : Option (List PhotoSize) := none
  video : Option TgVideo := none
  deriving DecidableEq

/-- One element of the `result` array.  Fields are optional so malformed
updates (missing `update_id` or `message`) are representable; subscripting a
missing `update_id` raises `KeyError`, while `message` is read with
`.get('message', {})` (line 546). -/
structure TgUpdate where
  update_id : Option Nat := none
  message : Option TgMessage := none
  deriving DecidableEq

/-- What the `getUpdates` HTTP round-trip produces: either a transport
failure (the `except` of `get_telegram_updates` returns `None`) or a parsed
JSON body with an `ok` flag (absent modelled as `false`, identical truthiness)
and an optional `result` array. -/
inductive TgResponse
  | fail
  | json (ok : Bool) (result : Option (List TgUpdate))
  deriving DecidableEq

/-- `get_telegram_updates` (lines 377-392): returns `response.json()` on
success and `None` on a request exception. -/
def get_telegram_updates (resp : TgResponse) :
    Option (Bool × Option (List TgUpdate)) :=
  match resp with
  | .fail => none
  | .json ok result => some (ok, result)

/-- The three local directories of the pipeline
(`data/input/images`, `data/input/videos`, `/tmp`). -/
inductive Folder
  | images
  | videos
  | output
  deriving DecidableEq

/-- A local file path: its directory and file name. -/
structure LocalPath where
  folder : Folder
  name : String
  deriving DecidableEq

/-- Local pipeline state: the cursor `CONFIG['last_update_id']` and the
contents of the three directories. -/
structure PipeState where
  last_update_id : Nat
  imagesDir : List String
  videosDir : List String
  outputDir : List String
  deriving DecidableEq

/-- Files currently in a directory. -/
def folderFiles (s : PipeState) : Folder → List String
  | .images => s.imagesDir
  | .videos => s.videosDir
  | .output => s.outputDir

/-- Create a file (append its name to its directory). -/
def addFile (s : PipeState) (p : LocalPath) : PipeState :=
  match p.folder with
  | .images => { s with imagesDir := s.imagesDir ++ [p.name] }
  | .videos => { s with videosDir := s.videosDir ++ [p.name] }
  | .output => { s with outputDir := s.outputDir ++ [p.name] }

/-- `os.path.exists` on a pipeline-managed path. -/
def pathExists (s : PipeState) (p : LocalPath) : Bool :=
  (folderFiles s p.folder).contains p.name

/-- `os.remove` on a pipeline-managed path. -/
def removePath (s : PipeState) (p : LocalPath) : PipeState :=
  match p.folder with
  | .images => { s with imagesDir := s.imagesDir.erase p.name }
  | .videos => { s with videosDir := s.videosDir.erase p.name }
  | .output => { s with outputDir := s.outputDir.erase p.name }

/-- Observable events of one cycle, in chronological order. -/
inductive Ev
  | cursorSet (n : Nat)
  | download (fid : String) (p : LocalPath)
  | removeFile (p : LocalPath)
  | notify (text : String)
  | ytInsert
  | ytChunk
  | ytFinalize
  | persistToken
  deriving DecidableEq

/-- Outcome of one `nextChunk()` call of the resumable upload: a progress
report (`response` still `None`), completion (the final response, carrying
the video id), or a raised exception. -/
inductive ChunkRes
  | progress (pct : Nat)
  | complete (videoId : String)
  | err
  deriving DecidableEq

/-- How the `while response is None` loop (lines 468-472) ends. -/
inductive LoopOut
  | done (videoId : String)
  | raised
  | stuck
  deriving DecidableEq

/-- Run the chunk loop over the environment's per-call outcomes, collecting
one `ytChunk` network event per `nextChunk()` call.  An exhausted trace
(`stuck`) models the real loop blocking forever, which no claim exercises. -/
def runChunks : List ChunkRes → List Ev × LoopOut
  | [] => ([], .stuck)
  | .progress _ :: rest =>
      let (evs, out) := runChunks rest
      (.ytChunk :: evs, out)
  | .complete vid :: _ => ([.ytChunk], .done vid)
  | .err :: _ => ([.ytChunk], .raised)

/-- The `status` part of the initial upload metadata (lines 442-445). -/
structure UploadStatus where
  privacyStatus : String
  selfDeclaredMadeForKids : Bool
  deriving DecidableEq

/-- The `snippet` part of the initial upload metadata (lines 436-441). -/
structure UploadSnippet where
  title : String
  description : String
  tags : List String
  categoryId : String
  deriving DecidableEq

/-- The full initial upload metadata `body` (lines 435-446). -/
structure UploadBody where
  snippet : UploadSnippet
  status : UploadStatus
  deriving DecidableEq

/-- The `body` dictionary built by `upload_youtube_short` (lines 435-446):
category 22, `privacyStatus` hard-coded to `"private"`, not made for kids. -/
def uploadBody (title description : String) (tags : List String) : UploadBody :=
  { snippet :=
      { title := title, description := description, tags := tags
        categoryId := "22" }
    status := { privacyStatus := "private", selfDeclaredMadeForKids := false } }

/-- `upload_youtube_short` (lines 428-502).  `hasClient` models the
`if not youtube` guard; `chunks` the successive `nextChunk()` outcomes;
`finalizeOk` whether the finalization `videos().update(...).execute()`
(lines 480-489) succeeds.  Any exception from a chunk or from finalization is
caught by the handlers on lines 493-502, which notify the chat and return
`None`. -/
def upload_youtube_short (chunks : List ChunkRes) (finalizeOk : Bool)
    (hasClient : Bool) : Option String × List Ev :=
  if hasClient then
    let evs := [Ev.ytInsert, Ev.notify "📤 Starting upload..."]
    let (cEvs, out) := runChunks chunks
    match out with
    | .stuck => (none, evs ++ cEvs)
    | .raised => (none, evs ++ cEvs ++ [.notify "❌ An error occurred"])
    | .done vid =>
        let evs := evs ++ cEvs ++
          [.notify ("🎉 Upload Successful! Video URL: https://www.youtube.com/watch?v=" ++ vid)]
        if finalizeOk then (some vid, evs ++ [.ytFinalize])
        else (none, evs ++ [.ytFinalize, .notify "❌ An HTTP error occurred"])
  else (none, [])

/-- `authenticate_youtube` (lines 103-148), the authenticator the pipeline
calls on line 574: builds a `Credentials` object from environment variables
(no in-process refresh, no token persisted anywhere) and then the API
service; it notifies the chat on success and on build failure. -/
def authenticate_youtube (buildOk : Bool) : Option Unit × List Ev :=
  if buildOk then (some (), [.notify "✅ Authentication successful!"])
  else (none, [.notify "❌ Service build failed"])

/-- Environment of one full cycle: the poll response and the outcomes of
every external call the cycle may perform. -/
structure Env where
  resp : TgResponse
  dlOk : Bool
  dlExt : String
  stamp : String
  choice : Nat
  dims : String → Nat × Nat
  imgDims : String → Nat × Nat
  writeOk : Bool
  validateOk : Bool
  authOk : Bool
  chunks : List ChunkRes
  finalizeOk : Bool

/-- `download_file` (lines 394-422): on success the file is saved as
`<timestamp><extension>` in the videos folder when `is_video` else the
images folder, and its path returned; every exception is caught and `None`
returned. -/
def download_file (env : Env) (fid : String) (is_video : Bool)
    (s : PipeState) : Option LocalPath × PipeState × List Ev :=
  if env.dlOk then
    let filename := env.stamp ++ env.dlExt
    let folder := if is_video then Folder.videos else Folder.images
    let p : LocalPath := ⟨folder, filename⟩
    (some p, addFile s p, [.download fid p])
  else (none, s, [])

/-- The media-selection branch of `process_new_media` (lines 549-555):
a truthy (present and non-empty) `photo` wins; otherwise a present `video`;
the returned flag is `is_video`. -/
def selectedDownload (m : TgMessage) : Option (String × Bool) :=
  match m.photo with
  | some (p :: ps) => some ((ps.getLastD p).file_id, false)
  | _ =>
    match m.video with
    | some v => some (v.file_id, true)
    | none => none

/-- How one cycle terminates: a normal return, or an exception escaping
`process_new_media`. -/
inductive Outcome
  | normal
  | raised (e : PyExc)
  deriving DecidableEq

/-- Everything one cycle produces: final local state, the chronological event
trace, the `video_id` from the upload (when one happened and succeeded), and
the termination outcome. -/
structure CycleResult where
  state : PipeState
  events : List Ev
  published : Option String
  outcome : Outcome
  deriving DecidableEq

/-- The `try` block of `process_new_media` (lines 559-585): build the
generator, composite, delete the downloaded file, then validate, authenticate
and upload.  Any exception inside is caught by the `except` on line 584,
which only prints. -/
def tryBlock (env : Env) (downloaded_path : LocalPath) (s : PipeState)
    (evs : List Ev) : CycleResult :=
  let g : GenEnv := ⟨env.choice, env.dims, env.imgDims, env.writeOk⟩
  match create_overlay_video g s.videosDir s.imagesDir with
  | (_, _, .error _) => ⟨s, evs, none, .normal⟩
  | (_, wrote, .ok overlayName) =>
    let s1 := if wrote then addFile s ⟨.output, overlayName⟩ else s
    let (s2, evs2) :=
      if pathExists s1 downloaded_path then
        (removePath s1 downloaded_path, evs ++ [.removeFile downloaded_path])
      else (s1, evs)
    if env.validateOk then
      match authenticate_youtube env.authOk with
      | (some _, aEvs) =>
          let (vid, uEvs) := upload_youtube_short env.chunks env.finalizeOk true
          ⟨s2, evs2 ++ aEvs ++ uEvs, vid, .normal⟩
      | (none, aEvs) => ⟨s2, evs2 ++ aEvs, none, .normal⟩
    else ⟨s2, evs2, none, .normal⟩

/-- `process_new_media` (lines 531-585).  Guard (line 537): a `None`
response, a falsy `ok` or a falsy (absent or empty) `result` ends the cycle.
Otherwise the LAST element of `result` is taken (line 542), the cursor is set
to its `update_id` (line 543) — a `KeyError` escaping if that field is
missing — then at most one media file is downloaded and, when a path came
back, the `try` block runs. -/
def process_new_media (env : Env) (s : PipeState) : CycleResult :=
  match get_telegram_updates env.resp with
  | some (true, some (u0 :: us)) =>
    let last_update := us.getLastD u0
    match last_update.update_id with
    | none => ⟨s, [], none, .raised (.keyError "update_id")⟩
    | some n =>
      let s1 := { s with last_update_id := n }
      let evs := [Ev.cursorSet n]
      let message := last_update.message.getD {}
      match selectedDownload message with
      | none => ⟨s1, evs, none, .normal⟩
      | some (fid, isv) =>
        match download_file env fid isv s1 with
        | (none, s2, dlEvs) => ⟨s2, evs ++ dlEvs, none, .normal⟩
        | (some p, s2, dlEvs) => tryBlock env p s2 (evs ++ dlEvs)
  | _ => ⟨s, [], none, .normal⟩

/-! ## Credential manager models (claim C8) -/

/-- Python global lookup of the name `encoded_token` (line 168): it is never
assigned anywhere in the module, so evaluating it raises `NameError`. -/
def encoded_token : Except PyExc String := .error (.nameError "encoded_token")

/-- In-memory view of a stored credential, with the flags
`authenticate_youtube2` inspects. -/
structure Cred where
  valid : Bool
  expired : Bool
  has_refresh_token : Bool
  deriving DecidableEq

/-- Environment of one `authenticate_youtube2` run: the parsed content of
`token.json` when present and loadable, the parsed content of the encoded
token, and the outcomes of the refresh, interactive-flow and service-build
calls. -/
structure Auth2Env where
  tokenFile : Option Cred
  envToken : Option Cred
  refreshOk : Bool
  flowOk : Bool
  buildOk : Bool

/-- Lines 170-224 of `authenticate_youtube2`, the part after the
`encoded_token` print: load stored credentials, refresh or run the
interactive flow when invalid, persist on success (lines 200-202, the
`persistToken` event), then build the service. -/
def auth2AfterToken (e : Auth2Env) (tok : Option String) :
    Option Unit × List Ev :=
  let credentials : Option Cred :=
    match e.tokenFile with
    | some c => some c
    | none => if tok.isSome then e.envToken else none
  let refreshedOrFlow : Option (Cred × List Ev) :=
    match credentials with
    | some c =>
      if c.valid then some (c, [])
      else if c.expired && c.has_refresh_token then
        if e.refreshOk then
          some ({ c with valid := true, expired := false }, [.persistToken])
        else none
      else if e.flowOk then
        some (⟨true, false, true⟩, [.persistToken])
      else none
    | none =>
      if e.flowOk then some (⟨true, false, true⟩, [.persistToken])
      else none
  match refreshedOrFlow with
  | none => (none, [])
  | some (_, evs) =>
    if e.buildOk then (some (), evs ++ [.notify "✅ Authentication successful!"])
    else (none, evs ++ [.notify "❌ Service build failed"])

/-- `authenticate_youtube2` (lines 151-224).  Its first statement after
`credentials = None` is `print("encoded_token" + str(encoded_token))`
(line 168), whose evaluation of the never-assigned global raises
`NameError` before any of the credential logic can run. -/
def authenticate_youtube2 (e : Auth2Env) : Except PyExc Unit × List Ev :=
  match encoded_token with
  | .error ex => (.error ex, [])
  | .ok tok =>
    match auth2AfterToken e (some tok) with
    | (some c, evs) => (.ok c, evs)
    | (none, evs) => (.error (.valueError "authentication failed"), evs)

/-! ## Event-trace helpers -/

/-- The texts of the chat notifications in a trace. -/
def notifyTexts (evs : List Ev) : List String :=
  evs.filterMap fun e =>
    match e with
    | .notify t => some t
    | _ => none

/-- The publishing-target network events in a trace. -/
def publishEvents (evs : List Ev) : List Ev :=
  evs.filter fun e =>
    match e with
    | .ytInsert | .ytChunk | .ytFinalize => true
    | _ => false

/-- The file ids of the download events in a trace. -/
def downloadFids (evs : List Ev) : List String :=
  evs.filterMap fun e =>
    match e with
    | .download fid _ => some fid
    | _ => none

/-- The token-persistence events in a trace. -/
def persistEvents (evs : List Ev) : List Ev :=
  evs.filter fun e =>
    match e with
    | .persistToken => true
    | _ => false

/-! ## Trace-shape lemmas -/

theorem downloadFids_append (a b : List Ev) :
    downloadFids (a ++ b) = downloadFids a ++ downloadFids b :=
  List.filterMap_append a b _

theorem runChunks_events_eq_chunk (l : List ChunkRes) :
    ∀ ev ∈ (runChunks l).1, ev = Ev.ytChunk := by
  induction l with
  | nil => simp [runChunks]
  | cons c rest ih =>
    cases c with
    | progress pct =>
      intro ev hev
      simp only [runChunks] at hev
      rcases List.mem_cons.mp hev with h | h
      · exact h
      · exact ih ev h
    | complete vid => simp [runChunks]
    | err => simp [runChunks]

theorem upload_events_shape (c : List ChunkRes) (f hcl : Bool) :
    ∀ ev ∈ (upload_youtube_short c f hcl).2,
      ev = Ev.ytInsert ∨ ev = Ev.ytChunk ∨ ev = Ev.ytFinalize ∨
      ∃ t, ev = Ev.notify t := by
  intro ev hev
  have hchunk := runChunks_events_eq_chunk c ev
  unfold upload_youtube_short at hev
  rcases hout : runChunks c with ⟨cEvs, out⟩
  rw [hout] at hchunk
  split at hev
  · cases out with
    | stuck =>
      rw [hout] at hev
      dsimp only at hev
      simp only [List.mem_append, List.mem_cons, List.not_mem_nil,
        or_false] at hev
      tauto
    | raised =>
      rw [hout] at hev
      dsimp only at hev
      simp only [List.mem_append, List.mem_cons, List.not_mem_nil,
        or_false] at hev
      tauto
    | done vid =>
      rw [hout] at hev
      dsimp only at hev
      split at hev <;>
        · simp only [List.mem_append, List.mem_cons, List.not_mem_nil,
            or_false] at hev
          tauto
  · simp at hev

theorem auth_events_shape (b : Bool) :
    ∀ ev ∈ (authenticate_youtube b).2, ∃ t, ev = Ev.notify t := by
  intro ev hev
  unfold authenticate_youtube at hev
  split at hev <;> simp at hev <;> exact ⟨_, hev⟩

theorem upload_no_removeFile (c : List ChunkRes) (f hcl : Bool) (p : LocalPath) :
    Ev.removeFile p ∉ (upload_youtube_short c f hcl).2 := by
  intro hev
  rcases upload_events_shape c f hcl _ hev with h | h | h | ⟨t, h⟩ <;> cases h

theorem upload_no_download (c : List ChunkRes) (f hcl : Bool)
    (fid : String) (p : LocalPath) :
    Ev.download fid p ∉ (upload_youtube_short c f hcl).2 := by
  intro hev
  rcases upload_events_shape c f hcl _ hev with h | h | h | ⟨t, h⟩ <;> cases h

theorem auth_no_removeFile (b : Bool) (p : LocalPath) :
    Ev.removeFile p ∉ (authenticate_youtube b).2 := by
  intro hev
  rcases auth_events_shape b _ hev with ⟨t, h⟩
  cases h

theorem auth_no_download (b : Bool) (fid : String) (p : LocalPath) :
    Ev.download fid p ∉ (authenticate_youtube b).2 := by
  intro hev
  rcases auth_events_shape b _ hev with ⟨t, h⟩
  cases h

theorem auth_no_finalize (b : Bool) :
    Ev.ytFinalize ∉ (authenticate_youtube b).2 := by
  intro hev
  rcases auth_events_shape b _ hev with ⟨t, h⟩
  cases h

/-- When a chunk raises before the session completes, the upload returns
`None` and the finalization metadata call is never issued. -/
theorem upload_raised (c : List ChunkRes) (f hcl : Bool)
    (h : (runChunks c).2 = .raised) :
    (upload_youtube_short c f hcl).1 = none ∧
    Ev.ytFinalize ∉ (upload_youtube_short c f hcl).2 := by
  unfold upload_youtube_short
  rcases hout : runChunks c with ⟨cEvs, out⟩
  rw [hout] at h
  cases hcl
  · simp
  · simp only [if_true]
    dsimp only at h
    subst h
    dsimp only
    refine ⟨rfl, ?_⟩
    have hchunk := runChunks_events_eq_chunk c Ev.ytFinalize
    rw [hout] at hchunk
    intro hev
    simp only [List.mem_append, List.mem_cons, List.not_mem_nil,
      or_false] at hev
    tauto

theorem last_update_id_addFile (s : PipeState) (p : LocalPath) :
    (addFile s p).last_update_id = s.last_update_id := by
  rcases p with ⟨f, nm⟩
  cases f <;> rfl

theorem last_update_id_removePath (s : PipeState) (p : LocalPath) :
    (removePath s p).last_update_id = s.last_update_id := by
  rcases p with ⟨f, nm⟩
  cases f <;> rfl

theorem deleteStep_events (s1 : PipeState) (p : LocalPath) (evs : List Ev) :
    ∃ tail, (if pathExists s1 p = true then
        (removePath s1 p, evs ++ [Ev.removeFile p]) else (s1, evs)).2 =
      evs ++ tail := by
  split
  · exact ⟨[Ev.removeFile p], rfl⟩
  · exact ⟨[], by simp⟩

theorem deleteStep_id (s1 : PipeState) (p : LocalPath) (evs : List Ev) :
    (if pathExists s1 p = true then
        (removePath s1 p, evs ++ [Ev.removeFile p])
      else (s1, evs)).1.last_update_id = s1.last_update_id := by
  split
  · simp [last_update_id_removePath]
  · rfl

/-- Master characterization of the `try` block: its events extend the
accumulated ones, it never changes the cursor, it always returns normally
(every inner exception is caught by line 584), and its `video_id` is either
`None` or exactly what the upload returned. -/
theorem tryBlock_spec (env : Env) (p : LocalPath) (s : PipeState)
    (evs : List Ev) :
    (∃ rest, (tryBlock env p s evs).events = evs ++ rest) ∧
    (tryBlock env p s evs).state.last_update_id = s.last_update_id ∧
    (tryBlock env p s evs).outcome = .normal ∧
    ((tryBlock env p s evs).published = none ∨
      (tryBlock env p s evs).published =
        (upload_youtube_short env.chunks env.finalizeOk true).1) := by
  have hs1 : ∀ (b : Bool) (t : PipeState) (q : LocalPath),
      (if b = true then addFile t q else t).last_update_id =
        t.last_update_id := by
    intro b t q
    split <;> simp [last_update_id_addFile]
  unfold tryBlock
  dsimp only
  rcases hC : create_overlay_video ⟨env.choice, env.dims, env.imgDims, env.writeOk⟩
      s.videosDir s.imagesDir with ⟨st, wrote, res⟩
  cases res with
  | error e =>
    exact ⟨⟨[], by simp⟩, rfl, rfl, Or.inl rfl⟩
  | ok overlayName =>
    dsimp only
    obtain ⟨tail, ht⟩ := deleteStep_events
      (if wrote = true then addFile s ⟨Folder.output, overlayName⟩ else s) p evs
    have hid := deleteStep_id
      (if wrote = true then addFile s ⟨Folder.output, overlayName⟩ else s) p evs
    split
    · rcases hA : authenticate_youtube env.authOk with ⟨cl, aEvs⟩
      cases cl with
      | none =>
        dsimp only
        exact ⟨⟨tail ++ aEvs, by rw [ht, List.append_assoc]⟩,
          by rw [hid, hs1], rfl, Or.inl rfl⟩
      | some cl =>
        dsimp only
        rcases hU : upload_youtube_short env.chunks env.finalizeOk true
          with ⟨vid, uEvs⟩
        dsimp only
        exact ⟨⟨tail ++ aEvs ++ uEvs, by rw [ht]; simp [List.append_assoc]⟩,
          by rw [hid, hs1], rfl, Or.inr rfl⟩
    · dsimp only
      exact ⟨⟨tail, ht⟩, by rw [hid, hs1], rfl, Or.inl rfl⟩

theorem deleteStep_mem (s1 : PipeState) (p : LocalPath) (evs : List Ev)
    (ev : Ev)
    (h : ev ∈ (if pathExists s1 p = true then
        (removePath s1 p, evs ++ [Ev.removeFile p]) else (s1, evs)).2) :
    ev ∈ evs ∨ ev = Ev.removeFile p := by
  split at h
  · simp only [List.mem_append, List.mem_cons, List.not_mem_nil,
      or_false] at h
    exact h
  · exact Or.inl h

/-- Every event of the `try` block is either an already-accumulated one, the
deletion of the downloaded path, an authenticator event, or an upload
event. -/
theorem tryBlock_events_mem (env : Env) (p : LocalPath) (s : PipeState)
    (evs : List Ev) (ev : Ev)
    (h : ev ∈ (tryBlock env p s evs).events) :
    ev ∈ evs ∨ ev = Ev.removeFile p ∨
    ev ∈ (authenticate_youtube env.authOk).2 ∨
    ev ∈ (upload_youtube_short env.chunks env.finalizeOk true).2 := by
  unfold tryBlock at h
  dsimp only at h
  rcases hC : create_overlay_video ⟨env.choice, env.dims, env.imgDims, env.writeOk⟩
      s.videosDir s.imagesDir with ⟨st, wrote, res⟩
  rw [hC] at h
  cases res with
  | error e => exact Or.inl h
  | ok overlayName =>
    dsimp only at h
    split at h
    · rcases hA : authenticate_youtube env.authOk with ⟨cl, aEvs⟩
      rw [hA] at h
      cases cl with
      | none =>
        dsimp only at h
        simp only [List.mem_append] at h
        rcases h with h | h
        · rcases deleteStep_mem _ p evs ev h with h | h
          · exact Or.inl h
          · exact Or.inr (Or.inl h)
        · exact Or.inr (Or.inr (Or.inl h))
      | some cl =>
        dsimp only at h
        simp only [List.mem_append] at h
        rcases h with (h | h) | h
        · rcases deleteStep_mem _ p evs ev h with h | h
          · exact Or.inl h
          · exact Or.inr (Or.inl h)
        · exact Or.inr (Or.inr (Or.inl h))
        · exact Or.inr (Or.inr (Or.inr h))
    · dsimp only at h
      rcases deleteStep_mem _ p evs ev h with h | h
      · exact Or.inl h
      · exact Or.inr (Or.inl h)

/-- `download_file` either fails (`None`, no state change, no event) or
saves one file into the images or videos folder, never into the output
folder. -/
theorem download_file_cases (env : Env) (fid : String) (isv : Bool)
    (s : PipeState) :
    download_file env fid isv s = (none, s, []) ∨
    ∃ p, download_file env fid isv s =
        (some p, addFile s p, [Ev.download fid p]) ∧
      p.folder ≠ Folder.output := by
  unfold download_file
  split
  · right
    refine ⟨_, rfl, ?_⟩
    cases isv <;> simp
  · left; rfl

/-- Every event a whole cycle can emit: the cursor write, a download into a
non-output folder, a deletion of a non-output path, an authenticator event,
or an upload event. -/
theorem process_events_mem (env : Env) (s : PipeState) (ev : Ev)
    (h : ev ∈ (process_new_media env s).events) :
    (∃ n, ev = Ev.cursorSet n) ∨
    (∃ fid p, ev = Ev.download fid p ∧ p.folder ≠ Folder.output) ∨
    (∃ p, ev = Ev.removeFile p ∧ p.folder ≠ Folder.output) ∨
    ev ∈ (authenticate_youtube env.authOk).2 ∨
    ev ∈ (upload_youtube_short env.chunks env.finalizeOk true).2 := by
  unfold process_new_media at h
  rcases hR : get_telegram_updates env.resp with - | ⟨ok, result⟩ <;>
    rw [hR] at h
  · simp at h
  · cases ok with
    | false => simp at h
    | true =>
      cases result with
      | none => simp at h
      | some us0 =>
        cases us0 with
        | nil => simp at h
        | cons u0 us =>
          dsimp only at h
          cases hid : (us.getLastD u0).update_id with
          | none => rw [hid] at h; simp at h
          | some n =>
            rw [hid] at h
            dsimp only at h
            cases hsel : selectedDownload ((us.getLastD u0).message.getD {}) with
            | none =>
              rw [hsel] at h
              dsimp only at h
              simp only [List.mem_cons, List.not_mem_nil, or_false] at h
              exact Or.inl ⟨n, h⟩
            | some fp =>
              rcases fp with ⟨fid, isv⟩
              rw [hsel] at h
              dsimp only at h
              rcases download_file_cases env fid isv
                  { s with last_update_id := n } with hD | ⟨p, hD, hpf⟩ <;>
                rw [hD] at h <;> dsimp only at h
              · simp only [List.append_nil, List.mem_cons,
                  List.not_mem_nil, or_false] at h
                exact Or.inl ⟨n, h⟩
              · rcases tryBlock_events_mem env _ _ _ ev h with h | h | h | h
                · simp only [List.mem_append, List.mem_cons,
                    List.not_mem_nil, or_false] at h
                  rcases h with h | h
                  · exact Or.inl ⟨n, h⟩
                  · exact Or.inr (Or.inl ⟨fid, p, h, hpf⟩)
                · exact Or.inr (Or.inr (Or.inl ⟨p, h, hpf⟩))
                · exact Or.inr (Or.inr (Or.inr (Or.inl h)))
                · exact Or.inr (Or.inr (Or.inr (Or.inr h)))

/-- The `video_id` a cycle reports is `None` unless it is exactly what the
upload returned. -/
theorem process_published (env : Env) (s : PipeState) :
    (process_new_media env s).published = none ∨
    (process_new_media env s).published =
      (upload_youtube_short env.chunks env.finalizeOk true).1 := by
  unfold process_new_media
  rcases hR : get_telegram_updates env.resp with - | ⟨ok, result⟩
  · exact Or.inl rfl
  · cases ok with
    | false => exact Or.inl rfl
    | true =>
      cases result with
      | none => exact Or.inl rfl
      | some us0 =>
        cases us0 with
        | nil => exact Or.inl rfl
        | cons u0 us =>
          dsimp only
          cases hid : (us.getLastD u0).update_id with
          | none => exact Or.inl rfl
          | some n =>
            dsimp only
            cases hsel : selectedDownload ((us.getLastD u0).message.getD {}) with
            | none => exact Or.inl rfl
            | some fp =>
              rcases fp with ⟨fid, isv⟩
              dsimp only
              rcases download_file_cases env fid isv
                  { s with last_update_id := n } with hD | ⟨p, hD, hpf⟩ <;>
                rw [hD] <;> dsimp only
              · exact Or.inl rfl
              · exact (tryBlock_spec env _ _ _).2.2.2

/-! ## Claim C6: overlay scaling bounds -/

/-- Claim C6 is false as stated: it quantifies over every background with
`W > 0` and `H > 0`, but at `W = 1, H = 1` (and a 1×1 overlay) the target
height `int(1 * 0.65)` is `0`, so computing `target_aspect` divides by zero
and `resize_image_for_video` raises instead of producing a scaled overlay. -/
theorem C6_counterexample :
    resize_image_for_video 1 1 1 1 = Except.error PyExc.zeroDivisionError := rfl

/-- C6 (amended): for every background with `W > 0` and `H ≥ 2` (so that the
truncated 65% target height is non-zero) and every overlay with positive
dimensions, the scaled overlay satisfies `scaledWidth ≤ W` and
`scaledHeight ≤ 0.65 * H` (as exact rationals: `20 * scaledHeight ≤ 13 * H`),
with equality on at least one dimension: `scaledWidth = W` in the
wider-than-target branch, `scaledHeight = int(0.65 * H)` in the other. -/
theorem C6_amended (iw ih vw vh : Nat) (hiw : 0 < iw) (hih : 0 < ih)
    (hvw : 0 < vw) (hvh : 2 ≤ vh) :
    ∃ nw nh, resize_image_for_video iw ih vw vh = Except.ok (nw, nh) ∧
      nw ≤ vw ∧ 20 * nh ≤ 13 * vh ∧ (nw = vw ∨ nh = 65 * vh / 100) := by
  have hth : 0 < 65 * vh / 100 := Nat.div_pos (by omega) (by norm_num)
  have hq := Nat.div_mul_le_self (65 * vh) 100
  have hthle : 20 * (65 * vh / 100) ≤ 13 * vh := by omega
  unfold resize_image_for_video
  dsimp only
  rw [if_neg (by omega), if_neg (by omega)]
  split
  · rename_i hbr
    refine ⟨vw, vw * ih / iw, rfl, le_refl _, ?_, Or.inl rfl⟩
    have hlt : vw * ih / iw < 65 * vh / 100 := by
      rw [Nat.div_lt_iff_lt_mul hiw]
      calc vw * ih < iw * (65 * vh / 100) := hbr
        _ = 65 * vh / 100 * iw := Nat.mul_comm _ _
    omega
  · rename_i hbr
    refine ⟨65 * vh / 100 * iw / ih, 65 * vh / 100, rfl, ?_, hthle,
      Or.inr rfl⟩
    push_neg at hbr
    have hmul : 65 * vh / 100 * iw ≤ ih * vw := by
      calc 65 * vh / 100 * iw = iw * (65 * vh / 100) := Nat.mul_comm _ _
        _ ≤ vw * ih := hbr
        _ = ih * vw := Nat.mul_comm _ _
    exact Nat.div_le_of_le_mul hmul

/-- Witness for C6 (amended) at a concrete 720×1280 background and 600×400
overlay. -/
theorem C6_witness :
    ∃ nw nh, resize_image_for_video 600 400 720 1280 = Except.ok (nw, nh) ∧
      nw ≤ 720 ∧ 20 * nh ≤ 13 * 1280 ∧ (nw = 720 ∨ nh = 65 * 1280 / 100) :=
  C6_amended 600 400 720 1280 (by norm_num) (by norm_num) (by norm_num)
    (by norm_num)

/-! ## Claim C9: stream release in `create_overlay_video` -/

/-- A compositor environment whose background decodes to height 1, making the
overlay resize raise `ZeroDivisionError` after the background stream was
opened. -/
def c9Gen : GenEnv := ⟨0, fun _ => (720, 1), fun _ => (600, 400), true⟩

/-- Claim C9 is false as stated: on this execution an exception
(`ZeroDivisionError` from the resize step) propagates out of
`create_overlay_video` while the background stream is open
(`videoOpened = true`) and not released (`videoClosed = false`) — the closes
on lines 367-368 are not in a `finally`, so a failure between acquiring the
stream and the encoding step skips them. -/
theorem C9_counterexample :
    create_overlay_video c9Gen ["bg.mp4"] ["a.jpg"] =
      (⟨true, false, false, false⟩, false,
        Except.error PyExc.zeroDivisionError) := rfl

/-- C9 (amended): whenever `create_overlay_video` returns normally — which
covers both the encode-success and the encode-failure case, because the write
error is swallowed on lines 362-363 — both the background stream and the
composited stream have been opened and closed before the return. -/
theorem C9_amended (g : GenEnv) (videos images : List String)
    (st : Streams) (wrote : Bool) (out : String)
    (h : create_overlay_video g videos images = (st, wrote, Except.ok out)) :
    st = ⟨true, true, true, true⟩ := by
  unfold create_overlay_video at h
  split at h
  · simp only [Prod.mk.injEq] at h
    exact Except.noConfusion h.2.2
  · rcases hImg : List.filter hasImageExt images with - | ⟨imf, rest⟩ <;>
      rw [hImg] at h <;> dsimp only at h
    · simp only [Prod.mk.injEq] at h
      exact Except.noConfusion h.2.2
    · split at h
      · simp only [Prod.mk.injEq] at h
        exact Except.noConfusion h.2.2
      · simp only [Prod.mk.injEq] at h
        exact h.1.symm

/-- A compositor environment identical to a healthy one except that the video
write fails (`writeOk = false`). -/
def c9WGen : GenEnv := ⟨0, fun _ => (720, 1280), fun _ => (600, 400), false⟩

/-- Witness for C9 (amended): a run whose encoding step fails still returns
with both streams closed. -/
theorem C9_witness :
    (create_overlay_video c9WGen ["bg.mp4"] ["a.jpg"]).2.2 =
        Except.ok "overlay_bg.mp4" ∧
    (create_overlay_video c9WGen ["bg.mp4"] ["a.jpg"]).1 =
      ⟨true, true, true, true⟩ :=
  ⟨rfl, C9_amended c9WGen ["bg.mp4"] ["a.jpg"] ⟨true, true, true, true⟩
    false "overlay_bg.mp4" rfl⟩

/-! ## Claims C10 and C5: compositor failure modes inside a cycle -/

/-- With no image-extension file in the images directory but at least one
video-extension file in the videos directory, `create_overlay_video` raises
the unbound-name error for `image_file` (line 319), not a dedicated
missing-asset error. -/
theorem create_overlay_noImage (g : GenEnv) (videos images : List String)
    (hvid : videos.filter hasVideoExt ≠ [])
    (himg : images.filter hasImageExt = []) :
    create_overlay_video g videos images =
      (noStreams, false, Except.error (PyExc.nameError "image_file")) := by
  have hne : (videos.filter hasVideoExt).isEmpty = false := by
    cases hfe : videos.filter hasVideoExt
    · exact absurd hfe hvid
    · rfl
  unfold create_overlay_video get_random_background_video
  rw [himg]
  simp [hne]

/-- With no video-extension file in the videos directory,
`create_overlay_video` raises `ValueError` from
`get_random_background_video` (lines 281-282), whatever the images
directory holds. -/
theorem create_overlay_noVideos (g : GenEnv) (videos images : List String)
    (hvid : videos.filter hasVideoExt = []) :
    create_overlay_video g videos images =
      (noStreams, false,
        Except.error
          (PyExc.valueError "No video files found in the specified folders")) := by
  unfold create_overlay_video get_random_background_video
  rw [hvid]
  simp

/-- When the poll response is well-formed with a last element carrying an
`update_id` and a media attachment, and the download succeeds, the cycle is
exactly: set the cursor, download, then run the `try` block on the updated
state. -/
theorem process_reaches_tryBlock (env : Env) (s : PipeState)
    (u0 : TgUpdate) (us : List TgUpdate) (n : Nat) (fid : String) (isv : Bool)
    (hresp : env.resp = .json true (some (u0 :: us)))
    (hid : (us.getLastD u0).update_id = some n)
    (hsel : selectedDownload ((us.getLastD u0).message.getD {}) =
      some (fid, isv))
    (hdl : env.dlOk = true) :
    process_new_media env s =
      tryBlock env
        ⟨if isv then Folder.videos else Folder.images, env.stamp ++ env.dlExt⟩
        (addFile { s with last_update_id := n }
          ⟨if isv then Folder.videos else Folder.images,
            env.stamp ++ env.dlExt⟩)
        [Ev.cursorSet n,
          Ev.download fid
            ⟨if isv then Folder.videos else Folder.images,
              env.stamp ++ env.dlExt⟩] := by
  unfold process_new_media get_telegram_updates
  rw [hresp]
  dsimp only
  rw [hid]
  dsimp only
  rw [hsel]
  dsimp only
  unfold download_file
  rw [hdl]
  rw [if_pos rfl]
  rfl

/-- C10 (confirmed): when the images directory holds no image-extension file
and the cycle's update carries a video (so the download lands in the videos
directory, which is then non-empty), `create_overlay_video` raises the
unbound-`image_file` `NameError` — not a dedicated missing-asset error — and
the cycle's generic handler (line 584) absorbs it: the cycle returns
normally and sends no chat notification at all. -/
theorem C10_holds (env : Env) (s : PipeState) (u0 : TgUpdate)
    (us : List TgUpdate) (n : Nat) (fid : String)
    (hresp : env.resp = TgResponse.json true (some (u0 :: us)))
    (hid : (us.getLastD u0).update_id = some n)
    (hsel : selectedDownload ((us.getLastD u0).message.getD {}) =
      some (fid, true))
    (hdl : env.dlOk = true)
    (hext : hasVideoExt (env.stamp ++ env.dlExt) = true)
    (himg : s.imagesDir.filter hasImageExt = []) :
    (create_overlay_video
        ⟨env.choice, env.dims, env.imgDims, env.writeOk⟩
        (s.videosDir ++ [env.stamp ++ env.dlExt]) s.imagesDir).2.2 =
      Except.error (PyExc.nameError "image_file") ∧
    (process_new_media env s).outcome = Outcome.normal ∧
    notifyTexts (process_new_media env s).events = [] := by
  have hvne : (s.videosDir ++ [env.stamp ++ env.dlExt]).filter hasVideoExt
      ≠ [] := by
    intro hc
    have hlen := congrArg List.length hc
    simp [List.filter_append, hext] at hlen
  have hover := create_overlay_noImage
    ⟨env.choice, env.dims, env.imgDims, env.writeOk⟩
    (s.videosDir ++ [env.stamp ++ env.dlExt]) s.imagesDir hvne himg
  refine ⟨by rw [hover], ?_⟩
  have hstep := process_reaches_tryBlock env s u0 us n fid true hresp hid
    hsel hdl
  rw [if_pos rfl] at hstep
  rw [hstep]
  unfold tryBlock
  dsimp only [addFile]
  rw [hover]
  exact ⟨rfl, rfl⟩

/-- Concrete cycle environment for the C10 witness: a chat video arrives
while the images directory is empty. -/
def c10Env : Env :=
  { resp := TgResponse.json true
      (some [{ update_id := some 11,
               message := some { photo := none, video := some ⟨"v1"⟩ } }])
    dlOk := true, dlExt := ".mp4", stamp := "20250101_120000", choice := 0
    dims := fun _ => (720, 1280), imgDims := fun _ => (600, 400)
    writeOk := true, validateOk := true, authOk := true
    chunks := [ChunkRes.progress 50, ChunkRes.complete "VID"]
    finalizeOk := true }

/-- Local state for the C10 witness: empty images directory, one background
video. -/
def c10State : PipeState := ⟨0, [], ["bg.mp4"], []⟩

/-- Witness for C10 at the concrete scenario. -/
theorem C10_witness :
    (create_overlay_video
        ⟨c10Env.choice, c10Env.dims, c10Env.imgDims, c10Env.writeOk⟩
        (c10State.videosDir ++ [c10Env.stamp ++ c10Env.dlExt])
        c10State.imagesDir).2.2 =
      Except.error (PyExc.nameError "image_file") ∧
    (process_new_media c10Env c10State).outcome = Outcome.normal ∧
    notifyTexts (process_new_media c10Env c10State).events = [] :=
  C10_holds c10Env c10State
    { update_id := some 11,
      message := some { photo := none, video := some ⟨"v1"⟩ } }
    [] 11 "v1" rfl rfl rfl rfl (by decide) rfl

/-- C5 (amended): with no video-extension file in the videos directory, the
compositor raises the missing-asset `ValueError` (the code's `NoAssetError`),
the cycle makes no network call to the publishing target and returns
normally — but, contrary to the claim, NO failure notification is sent to
the chat: the generic handler on lines 584-585 only prints locally. -/
theorem C5_amended (env : Env) (s : PipeState) (u0 : TgUpdate)
    (us : List TgUpdate) (n : Nat) (fid : String)
    (hresp : env.resp = TgResponse.json true (some (u0 :: us)))
    (hid : (us.getLastD u0).update_id = some n)
    (hsel : selectedDownload ((us.getLastD u0).message.getD {}) =
      some (fid, false))
    (hdl : env.dlOk = true)
    (hvid : s.videosDir.filter hasVideoExt = []) :
    (∀ (g : GenEnv) (imgs : List String),
      (create_overlay_video g s.videosDir imgs).2.2 =
        Except.error
          (PyExc.valueError "No video files found in the specified folders")) ∧
    (process_new_media env s).outcome = Outcome.normal ∧
    publishEvents (process_new_media env s).events = [] ∧
    notifyTexts (process_new_media env s).events = [] := by
  refine ⟨fun g imgs => by rw [create_overlay_noVideos g s.videosDir imgs hvid],
    ?_⟩
  have hstep := process_reaches_tryBlock env s u0 us n fid false hresp hid
    hsel hdl
  rw [if_neg (by simp)] at hstep
  rw [hstep]
  unfold tryBlock
  dsimp only [addFile]
  rw [create_overlay_noVideos _ s.videosDir
    (s.imagesDir ++ [env.stamp ++ env.dlExt]) hvid]
  exact ⟨rfl, rfl, rfl⟩

/-- Concrete cycle environment for C5: a chat photo arrives while the videos
directory is empty. -/
def c5Env : Env :=
  { resp := TgResponse.json true
      (some [{ update_id := some 10,
               message := some { photo := some [⟨"abc"⟩], video := none } }])
    dlOk := true, dlExt := ".jpg", stamp := "20250101_120000", choice := 0
    dims := fun _ => (720, 1280), imgDims := fun _ => (600, 400)
    writeOk := true, validateOk := true, authOk := true
    chunks := [ChunkRes.progress 50, ChunkRes.complete "VID"]
    finalizeOk := true }

/-- Local state for C5: all directories empty. -/
def c5State : PipeState := ⟨0, [], [], []⟩

/-- Counterexample to claim C5 as stated: on a cycle whose videos directory
is empty the compositor does raise and no publishing-target call is made,
but the claimed failure notification is NOT sent — the cycle emits no chat
notification at all. -/
theorem C5_counterexample :
    notifyTexts (process_new_media c5Env c5State).events = [] ∧
    (process_new_media c5Env c5State).outcome = Outcome.normal := by
  exact ⟨rfl, rfl⟩

/-- Witness for C5 (amended) at the concrete scenario. -/
theorem C5_witness :
    (create_overlay_video ⟨0, fun _ => (720, 1280), fun _ => (600, 400), true⟩
        c5State.videosDir ["a.jpg"]).2.2 =
      Except.error
        (PyExc.valueError "No video files found in the specified folders") ∧
    (process_new_media c5Env c5State).outcome = Outcome.normal ∧
    publishEvents (process_new_media c5Env c5State).events = [] ∧
    notifyTexts (process_new_media c5Env c5State).events = [] :=
  ⟨(C5_amended c5Env c5State
      { update_id := some 10,
        message := some { photo := some [⟨"abc"⟩], video := none } }
      [] 10 "abc" rfl rfl rfl rfl rfl).1
      ⟨0, fun _ => (720, 1280), fun _ => (600, 400), true⟩ ["a.jpg"],
   (C5_amended c5Env c5State
      { update_id := some 10,
        message := some { photo := some [⟨"abc"⟩], video := none } }
      [] 10 "abc" rfl rfl rfl rfl rfl).2⟩

/-! ## Claim C1: one update per cycle, cursor-first -/

/-- Membership in the download-fid projection of a trace. -/
theorem downloadFids_mem (evs : List Ev) (fid : String) :
    fid ∈ downloadFids evs ↔ ∃ q, Ev.download fid q ∈ evs := by
  unfold downloadFids
  rw [List.mem_filterMap]
  constructor
  · rintro ⟨a, ha, hfa⟩
    cases a <;> simp at hfa
    rcases hfa with ⟨rfl, rfl⟩
    exact ⟨_, ha⟩
  · rintro ⟨q, hq⟩
    exact ⟨Ev.download fid q, hq, rfl⟩

/-- A poll environment whose response lists the identifiers out of order:
`[5, 3]`. -/
def c1Env : Env :=
  { resp := TgResponse.json true
      (some [{ update_id := some 5 }, { update_id := some 3 }])
    dlOk := true, dlExt := ".jpg", stamp := "20250101_120000", choice := 0
    dims := fun _ => (720, 1280), imgDims := fun _ => (600, 400)
    writeOk := true, validateOk := true, authOk := true
    chunks := [], finalizeOk := true }

/-- Local state for the C1 counterexample. -/
def c1State : PipeState := ⟨0, [], [], []⟩

/-- Claim C1 is false as stated: `process_new_media` acts on
`updates['result'][-1]`, the LAST element, not the one with the maximum
identifier.  On a response listing identifiers `[5, 3]` the cursor advances
to 3 although an update with the larger identifier 5 was present (and is now
skipped forever, since the next poll uses offset `cursor + 1`). -/
theorem C1_counterexample :
    (process_new_media c1Env c1State).state.last_update_id = 3 ∧
    c1Env.resp = TgResponse.json true
      (some [{ update_id := some 5 }, { update_id := some 3 }]) ∧
    (3 : Nat) < 5 :=
  ⟨rfl, rfl, by norm_num⟩

/-- C1 (amended): for every poll response with a non-empty result list whose
LAST element carries `update_id = n`, the cursor is advanced to `n` as the
very first event of the cycle — before any download, compositing or upload —
and it ends at `n` whatever the downstream environment does (so a downstream
failure still leaves the cursor advanced); moreover every download the cycle
performs uses the media reference selected from that last element only. -/
theorem C1_amended (env : Env) (s : PipeState) (u0 : TgUpdate)
    (us : List TgUpdate) (n : Nat)
    (hresp : env.resp = TgResponse.json true (some (u0 :: us)))
    (hid : (us.getLastD u0).update_id = some n) :
    (process_new_media env s).state.last_update_id = n ∧
    (process_new_media env s).events.head? = some (Ev.cursorSet n) ∧
    ∀ fid ∈ downloadFids (process_new_media env s).events,
      ∃ isv, selectedDownload ((us.getLastD u0).message.getD {}) =
        some (fid, isv) := by
  unfold process_new_media get_telegram_updates
  rw [hresp]
  dsimp only
  rw [hid]
  dsimp only
  cases hsel : selectedDownload ((us.getLastD u0).message.getD {}) with
  | none =>
    refine ⟨rfl, rfl, ?_⟩
    intro fid hf
    simp [downloadFids] at hf
  | some fp =>
    rcases fp with ⟨fid0, isv⟩
    dsimp only
    rcases download_file_cases env fid0 isv { s with last_update_id := n }
        with hD | ⟨p, hD, hpf⟩ <;> rw [hD] <;> dsimp only
    · refine ⟨rfl, rfl, ?_⟩
      intro fid hf
      simp [downloadFids] at hf
    · obtain ⟨⟨rest, hevs⟩, hsid, -, -⟩ := tryBlock_spec env p
        (addFile { s with last_update_id := n } p)
        ([Ev.cursorSet n] ++ [Ev.download fid0 p])
      refine ⟨by rw [hsid, last_update_id_addFile], by rw [hevs]; rfl, ?_⟩
      intro fid hf
      rw [downloadFids_mem] at hf
      obtain ⟨q, hq⟩ := hf
      rcases tryBlock_events_mem env p _ _ _ hq with h | h | h | h
      · simp only [List.mem_append, List.mem_cons, List.not_mem_nil,
          or_false] at h
        rcases h with h | h
        · exact Ev.noConfusion h
        · obtain ⟨rfl, rfl⟩ : fid = fid0 ∧ q = p := by
            injection h with h1 h2
            exact ⟨h1, h2⟩
          exact ⟨isv, rfl⟩
      · exact Ev.noConfusion h
      · exact absurd h (auth_no_download _ _ _)
      · exact absurd h (upload_no_download _ _ _ _ _)

/-- Witness for C1 (amended) at the out-of-order response environment. -/
theorem C1_witness :
    (process_new_media c1Env c1State).state.last_update_id = 3 ∧
    (process_new_media c1Env c1State).events.head? = some (Ev.cursorSet 3) :=
  ⟨(C1_amended c1Env c1State { update_id := some 5 }
      [{ update_id := some 3 }] 3 rfl rfl).1,
   (C1_amended c1Env c1State { update_id := some 5 }
      [{ update_id := some 3 }] 3 rfl rfl).2.1⟩

/-! ## Claim C4: malformed poll responses -/

/-- Poll environment whose single result element lacks every field. -/
def c4Env : Env :=
  { resp := TgResponse.json true (some [{ update_id := none, message := none }])
    dlOk := true, dlExt := ".jpg", stamp := "20250101_120000", choice := 0
    dims := fun _ => (720, 1280), imgDims := fun _ => (600, 400)
    writeOk := true, validateOk := true, authOk := true
    chunks := [], finalizeOk := true }

/-- Poll environment whose single result element has an `update_id` but no
`message`. -/
def c4bEnv : Env :=
  { c4Env with
    resp := TgResponse.json true
      (some [{ update_id := some 7, message := none }]) }

/-- Local state for the C4 scenarios. -/
def c4State : PipeState := ⟨0, [], [], []⟩

/-- Claim C4 is false as stated: a response that is `ok` with a non-empty
result whose element lacks `update_id` makes the cycle RAISE (`KeyError`
from the subscription on line 543, which sits outside the `try` block) —
it is not treated as a no-update return. -/
theorem C4_counterexample :
    (process_new_media c4Env c4State).outcome =
      Outcome.raised (PyExc.keyError "update_id") := rfl

/-- C4 (amended): a malformed element lacking `update_id` makes the cycle
raise `KeyError`, with state unchanged and no event emitted; a malformed
element that has `update_id = n` but no `message` is handled without
raising (`.get('message', {})` on line 546), but the cursor IS advanced to
`n` — it is not left unchanged as the claim says — and nothing is
downloaded or published. -/
theorem C4_amended (env : Env) (s : PipeState) (u0 : TgUpdate)
    (us : List TgUpdate)
    (hresp : env.resp = TgResponse.json true (some (u0 :: us))) :
    ((us.getLastD u0).update_id = none →
      process_new_media env s =
        ⟨s, [], none, Outcome.raised (PyExc.keyError "update_id")⟩) ∧
    (∀ n, (us.getLastD u0).update_id = some n →
      (us.getLastD u0).message = none →
      (process_new_media env s).outcome = Outcome.normal ∧
      (process_new_media env s).state.last_update_id = n ∧
      (process_new_media env s).events = [Ev.cursorSet n] ∧
      (process_new_media env s).published = none) := by
  constructor
  · intro hid
    unfold process_new_media get_telegram_updates
    rw [hresp]
    dsimp only
    rw [hid]
  · intro n hid hmsg
    unfold process_new_media get_telegram_updates
    rw [hresp]
    dsimp only
    rw [hid]
    dsimp only
    rw [hmsg]
    exact ⟨rfl, rfl, rfl, rfl⟩

/-- Witness for C4 (amended) at the two concrete malformed responses. -/
theorem C4_witness :
    process_new_media c4Env c4State =
      ⟨c4State, [], none, Outcome.raised (PyExc.keyError "update_id")⟩ ∧
    (process_new_media c4bEnv c4State).outcome = Outcome.normal ∧
    (process_new_media c4bEnv c4State).state.last_update_id = 7 ∧
    (process_new_media c4bEnv c4State).events = [Ev.cursorSet 7] :=
  ⟨(C4_amended c4Env c4State { update_id := none, message := none } []
      rfl).1 rfl,
   ((C4_amended c4bEnv c4State { update_id := some 7, message := none } []
      rfl).2 7 rfl rfl).1,
   ((C4_amended c4bEnv c4State { update_id := some 7, message := none } []
      rfl).2 7 rfl rfl).2.1,
   ((C4_amended c4bEnv c4State { update_id := some 7, message := none } []
      rfl).2 7 rfl rfl).2.2.1⟩

/-! ## Claim C2: the composited asset after a successful publish -/

/-- A fully successful cycle: photo update, download, composite, validate,
authenticate, chunked upload completing with `VID123`, finalization ok. -/
def c2Env : Env :=
  { resp := TgResponse.json true
      (some [{ update_id := some 7,
               message := some { photo := some [⟨"abc"⟩], video := none } }])
    dlOk := true, dlExt := ".jpg", stamp := "20250101_120000", choice := 0
    dims := fun _ => (720, 1280), imgDims := fun _ => (600, 400)
    writeOk := true, validateOk := true, authOk := true
    chunks := [ChunkRes.progress 50, ChunkRes.complete "VID123"]
    finalizeOk := true }

/-- Local state for the C2 scenario: one background video. -/
def c2State : PipeState := ⟨0, [], ["bg.mp4"], []⟩

/-- Claim C2 is false as stated: after a fully successful publish
(`video_id = VID123` returned, finalization included) the composited asset
`overlay_bg.mp4` is still on disk and no deletion of it ever happened —
nothing in the code removes the overlay file. -/
theorem C2_counterexample :
    (process_new_media c2Env c2State).published = some "VID123" ∧
    "overlay_bg.mp4" ∈ (process_new_media c2Env c2State).state.outputDir ∧
    Ev.removeFile ⟨Folder.output, "overlay_bg.mp4"⟩ ∉
      (process_new_media c2Env c2State).events := by
  refine ⟨rfl, by decide, by decide⟩

/-- C2 (amended): the composited asset is never deleted, after a successful
publish or otherwise — the only deletion a cycle can perform targets the
downloaded media file, so no `os.remove` ever touches the output folder. -/
theorem C2_amended (env : Env) (s : PipeState) (p : LocalPath)
    (h : Ev.removeFile p ∈ (process_new_media env s).events) :
    p.folder ≠ Folder.output := by
  rcases process_events_mem env s _ h with ⟨n, h⟩ | ⟨fid, q, h, hq⟩ |
    ⟨q, h, hq⟩ | h | h
  · exact Ev.noConfusion h
  · exact Ev.noConfusion h
  · obtain rfl : p = q := by injection h
    exact hq
  · exact absurd h (auth_no_removeFile _ _)
  · exact absurd h (upload_no_removeFile _ _ _ _)

/-- Witness for C2 (amended): the deletion the successful cycle does perform
targets the downloaded image in the images folder, not the output folder. -/
theorem C2_witness :
    (⟨Folder.images, "20250101_120000.jpg"⟩ : LocalPath).folder ≠
      Folder.output :=
  C2_amended c2Env c2State ⟨Folder.images, "20250101_120000.jpg"⟩ (by decide)

/-! ## Claim C7: chunk failure during the resumable upload -/

/-- Same full pipeline environment as a successful cycle, except that the
first chunk transfer raises. -/
def c7Env : Env :=
  { c2Env with chunks := [ChunkRes.err] }

/-- Local state for the C7 witness. -/
def c7State : PipeState := ⟨0, [], ["bg.mp4"], []⟩

/-- C7 (confirmed): if a chunk raises before the upload session reports
completion, the cycle publishes nothing (`upload_youtube_short` returns
`None`), the finalization metadata update is never issued, no deletion ever
touches the output folder (the composited asset survives), and the initial
upload metadata always carries `privacyStatus = "private"`. -/
theorem C7_holds (env : Env) (s : PipeState) (title desc : String)
    (tags : List String)
    (h : (runChunks env.chunks).2 = LoopOut.raised) :
    (process_new_media env s).published = none ∧
    Ev.ytFinalize ∉ (process_new_media env s).events ∧
    (∀ p, Ev.removeFile p ∈ (process_new_media env s).events →
      p.folder ≠ Folder.output) ∧
    (uploadBody title desc tags).status.privacyStatus = "private" := by
  refine ⟨?_, ?_, ?_, rfl⟩
  · rcases process_published env s with hP | hP
    · exact hP
    · rw [hP]
      exact (upload_raised env.chunks env.finalizeOk true h).1
  · intro hf
    rcases process_events_mem env s _ hf with ⟨n, h'⟩ | ⟨fid, q, h', -⟩ |
      ⟨q, h', -⟩ | h' | h'
    · exact Ev.noConfusion h'
    · exact Ev.noConfusion h'
    · exact Ev.noConfusion h'
    · exact absurd h' (auth_no_finalize _)
    · exact (upload_raised env.chunks env.finalizeOk true h).2 h'
  · intro p hp
    rcases process_events_mem env s _ hp with ⟨n, h'⟩ | ⟨fid, q, h', hq⟩ |
      ⟨q, h', hq⟩ | h' | h'
    · exact Ev.noConfusion h'
    · exact Ev.noConfusion h'
    · obtain rfl : p = q := by injection h'
      exact hq
    · exact absurd h' (auth_no_removeFile _ _)
    · exact absurd h' (upload_no_removeFile _ _ _ _)

/-- Witness for C7 at the concrete failing-chunk cycle. -/
theorem C7_witness :
    (process_new_media c7Env c7State).published = none ∧
    Ev.ytFinalize ∉ (process_new_media c7Env c7State).events ∧
    (uploadBody "Meme of the day #shorts #memes #funny" ""
      ["#memes", "#funny"]).status.privacyStatus = "private" :=
  ⟨(C7_holds c7Env c7State "Meme of the day #shorts #memes #funny" ""
      ["#memes", "#funny"] rfl).1,
   (C7_holds c7Env c7State "Meme of the day #shorts #memes #funny" ""
      ["#memes", "#funny"] rfl).2.1,
   (C7_holds c7Env c7State "Meme of the day #shorts #memes #funny" ""
      ["#memes", "#funny"] rfl).2.2.2⟩

/-! ## Claim C3: what the cycle deletes after compositing -/

/-- A cycle whose update carries a VIDEO: the download lands in the videos
folder; an older image is still in the images folder so compositing
succeeds. -/
def c3Env : Env :=
  { resp := TgResponse.json true
      (some [{ update_id := some 9,
               message := some { photo := none, video := some ⟨"v1"⟩ } }])
    dlOk := true, dlExt := ".mp4", stamp := "20250101_120000", choice := 0
    dims := fun _ => (720, 1280), imgDims := fun _ => (600, 400)
    writeOk := true, validateOk := false, authOk := true
    chunks := [], finalizeOk := true }

/-- Local state for the C3 scenario: one leftover image, one library
background video. -/
def c3State : PipeState := ⟨0, ["old.jpg"], ["bg.mp4"], []⟩

/-- C3 fails on the code: when the chat media is a video, `download_file`
stores it in the background-video library (`is_video=True`, line 412) and
line 570 then deletes `downloaded_path` — the file in the videos folder —
after compositing.  The comment on line 568 says "Delete the image", but the
code removes the downloaded VIDEO from the library, which the claim (and the
spec's reusable-library design) says is never deleted. -/
theorem C3_bug :
    Ev.removeFile ⟨Folder.videos, "20250101_120000.mp4"⟩ ∈
      (process_new_media c3Env c3State).events ∧
    (process_new_media c3Env c3State).state.videosDir = ["bg.mp4"] ∧
    (process_new_media c3Env c3State).outcome = Outcome.normal := by
  refine ⟨by decide, rfl, rfl⟩

/-! ## Claim C8: credential refresh persistence -/

/-- C8 has no working code behind it: the pipeline's authenticator
(`authenticate_youtube`, called on line 574) performs no token persistence
at all — its event trace never contains `persistToken` — and the alternative
`authenticate_youtube2`, which does contain the refresh-and-persist logic
(lines 190-202), always raises `NameError` on the never-assigned global
`encoded_token` (line 168) before any credential handling can run, on every
input. -/
theorem C8_bug :
    (∀ e : Auth2Env, authenticate_youtube2 e =
      (Except.error (PyExc.nameError "encoded_token"), [])) ∧
    (∀ b : Bool, persistEvents (authenticate_youtube b).2 = []) := by
  constructor
  · intro e
    rfl
  · intro b
    cases b <;> rfl
